import Mathlib

/-!
Verification of the syntax-highlighting configuration layer of Geany
(src/highlighting.c).  The C code reads colour/bold/italic styling records
and keyword lists from two layered GLib key files (system defaults and user
overrides), falls back to hard-coded defaults, and forwards the results to
the Scintilla editing widget.

The shallow embedding below models:
  - a GLib key file as its two lookup operations (string and string list),
    returning none for a missing key (the C functions pass a NULL GError
    and test the result pointer only);
  - NULL pointers as Option;
  - gint as Int and guint as Nat (values < 2^32), with explicit mod 2^32
    where C unsigned arithmetic wraps;
  - the widget calls issued by set_sci_style as a list of messages;
  - the out-of-bounds behaviour of the NULL-terminated string-list reads by
    an access-level model returning Except.
-/

/-- HighlightingStyle (highlighting.h): foreground/background colour (gint)
and bold/italic flags (gboolean). -/
structure HighlightingStyle where
  foreground : Int
  background : Int
  bold : Bool
  italic : Bool
deriving Repr, DecidableEq

/-- A GKeyFile modelled by the two lookups highlighting.c performs on it.
g_key_file_get_string and g_key_file_get_string_list return NULL (none)
when the group or key is absent. -/
structure GKeyFile where
  get_string : String → String → Option String
  get_string_list : String → String → Option (List String)

/-- Mirrors the layering idiom used throughout the file:
result = lookup(configh); if (result == NULL) result = lookup(config). -/
def firstSome {α : Type} (h c : Option α) : Option α :=
  match h with
  | none => c
  | some v => some v

/-- GEANY_WHITESPACE_CHARS (highlighting.c line 40). -/
def GEANY_WHITESPACE_CHARS : String :=
  " \t!\"#$%&\x27()*+,-./:;<=>?@[\\]^`{|}~"

/-- Modelled from the spec: GEANY_WORDCHARS is the hard-coded default
word-character set (defined in geany.h, which is not part of this excerpt;
the glossary describes word characters as the identifier-character set).
The theorems below do not depend on its exact value, only on its identity. -/
def GEANY_WORDCHARS : String :=
  "_abcdefghijklmnopqrstuvwxyzABCDEFGHIJKLMNOPQRSTUVWXYZ0123456789"

/-- rotate_rgb (highlighting.c lines 157-163): convert 0x..RRGGBB to
0x..BBGGRR.  The gint argument is viewed through its two's-complement bit
pattern (mod 2^32), on which the C masks and shifts operate. -/
def rotate_rgb (color : Int) : Int :=
  let c : Nat := (color % 4294967296).toNat
  (((c &&& 0xFF0000) >>> 16) + (c &&& 0x00FF00) + ((c &&& 0x0000FF) <<< 16) : Nat)

/-- invert (highlighting.c lines 257-269).  invert_all is the gboolean
(gint) field common_style_set.invert_all; icolour is a guint (< 2^32).
All intermediate guint operations wrap mod 2^32; the unsigned subtractions
are modelled by adding 2^32 before subtracting. -/
def invert (invert_all : Int) (icolour : Nat) : Nat :=
  if invert_all ≠ 0 then
    let r := (4294967296 + 0xffffff - icolour) % 4294967296
    let g := (4294967296 + 0xffffff - (icolour >>> 8)) % 4294967296
    let b := (4294967296 + 0xffffff - (icolour >>> 16)) % 4294967296
    r ||| ((g <<< 8) % 4294967296) ||| ((b <<< 16) % 4294967296)
  else icolour

/-- The value of the expression (list != NULL && list[i] != NULL ? list[i] : NULL)
under well-defined indexing.  The C code indexes the NULL-terminated array
without a bound check; the access-level model further below accounts for
reads past the terminator. -/
def listItem (list : Option (List String)) (i : Nat) : Option String :=
  match list with
  | none => none
  | some l => l.get? i

/-- The four field assignments of get_keyfile_style (highlighting.c lines
177-192), given the selected string list.  strtod stands for the value of
(gint) utils_strtod(s, NULL, FALSE) and atob for utils_atob(s); both live
in utils.c, outside this excerpt, so they are left abstract. -/
def styleFromList (strtod : String → Int) (atob : String → Bool)
    (list : Option (List String)) (default_style : HighlightingStyle) :
    HighlightingStyle :=
  { foreground :=
      match listItem list 0 with
      | some s => strtod s
      | none => rotate_rgb default_style.foreground
    background :=
      match listItem list 1 with
      | some s => strtod s
      | none => rotate_rgb default_style.background
    bold :=
      match listItem list 2 with
      | some s => atob s
      | none => default_style.bold
    italic :=
      match listItem list 3 with
      | some s => atob s
      | none => default_style.italic }

/-- get_keyfile_style (highlighting.c lines 166-195).  The g_return_if_fail
guard restricts the function to non-NULL arguments, so config and configh
are taken directly; the configh list is preferred over the config list. -/
def get_keyfile_style (strtod : String → Int) (atob : String → Bool)
    (config configh : GKeyFile) (key_name : String)
    (default_style : HighlightingStyle) : HighlightingStyle :=
  styleFromList strtod atob
    (firstSome (configh.get_string_list "styling" key_name)
      (config.get_string_list "styling" key_name))
    default_style

/-- get_keyfile_keywords (highlighting.c lines 110-132): the string stored
into style_sets[index].keywords[pos].  g_strdup of the default is modelled
as the string itself (value semantics). -/
def get_keyfile_keywords (config configh : Option GKeyFile)
    (sect : Option String) (key : String) (default_value : String) : String :=
  match config, configh, sect with
  | some config, some configh, some sect =>
    match firstSome (configh.get_string sect key) (config.get_string sect key) with
    | none => default_value
    | some result => result
  | _, _, _ => default_value

/-- get_keyfile_wordchars (highlighting.c lines 135-154): the string stored
through the wordchars out-parameter. -/
def get_keyfile_wordchars (config configh : Option GKeyFile) : String :=
  match config, configh with
  | some config, some configh =>
    match firstSome (configh.get_string "settings" "wordchars")
        (config.get_string "settings" "wordchars") with
    | none => GEANY_WORDCHARS
    | some result => result
  | _, _ => GEANY_WORDCHARS

/-- get_keyfile_whitespace_chars (highlighting.c lines 321-339). -/
def get_keyfile_whitespace_chars (config configh : Option GKeyFile) : String :=
  match config, configh with
  | some config, some configh =>
    match firstSome (configh.get_string "settings" "whitespace_chars")
        (config.get_string "settings" "whitespace_chars") with
    | none => GEANY_WHITESPACE_CHARS
    | some result => result
  | _, _ => GEANY_WHITESPACE_CHARS

/-- utils_atob applied to a possibly-NULL const gchar*: utils_atob (utils.c,
outside this excerpt) returns FALSE for a NULL argument; its behaviour on
non-NULL strings is kept abstract through the atob parameter. -/
def atobOpt (atob : String → Bool) : Option String → Bool
  | none => false
  | some s => atob s

/-- The field assignments of get_keyfile_hex (highlighting.c lines 209-225),
given the selected string list.  Each colour falls back to the supplied
string default when present (else if (foreground) ...), otherwise the field
keeps its previous value; the bold default is utils_atob(bold) and the
italic default is the constant FALSE. -/
def hexFromList (strtod : String → Int) (atob : String → Bool)
    (list : Option (List String)) (foreground background bold : Option String)
    (style : HighlightingStyle) : HighlightingStyle :=
  { foreground :=
      match listItem list 0 with
      | some s => strtod s
      | none =>
        match foreground with
        | some f => strtod f
        | none => style.foreground
    background :=
      match listItem list 1 with
      | some s => strtod s
      | none =>
        match background with
        | some b => strtod b
        | none => style.background
    bold :=
      match listItem list 2 with
      | some s => atob s
      | none => atobOpt atob bold
    italic :=
      match listItem list 3 with
      | some s => atob s
      | none => false }

/-- get_keyfile_hex (highlighting.c lines 198-228): returns the style left
in *style.  When config, configh or section is NULL the function returns
immediately, leaving the style unchanged. -/
def get_keyfile_hex (strtod : String → Int) (atob : String → Bool)
    (config configh : Option GKeyFile) (sect : Option String) (key : String)
    (foreground background bold : Option String)
    (style : HighlightingStyle) : HighlightingStyle :=
  match config, configh, sect with
  | some config, some configh, some sect =>
    hexFromList strtod atob
      (firstSome (configh.get_string_list sect key)
        (config.get_string_list sect key))
      foreground background bold style
  | _, _, _ => style

/-- C isspace for the default locale, as consulted by strtol. -/
def isCSpace (c : Char) : Bool :=
  c = ' ' || c = '\t' || c = '\n' || c = '\r' || c.toNat = 11 || c.toNat = 12

/-- Accumulate decimal digits, most significant first. -/
def strtolDigits : List Char → Int → Int
  | [], acc => acc
  | c :: cs, acc => strtolDigits cs (acc * 10 + (c.toNat - 48 : Nat))

/-- LONG_MIN of the LP64 data model (64-bit long), at which strtol
saturates. -/
def LONG_MIN : Int := -9223372036854775808

/-- LONG_MAX of the LP64 data model (64-bit long), at which strtol
saturates. -/
def LONG_MAX : Int := 9223372036854775807

/-- strtol's saturation of an out-of-range converted value to
LONG_MIN/LONG_MAX. -/
def clampLong (v : Int) : Int :=
  if v < LONG_MIN then LONG_MIN else if v > LONG_MAX then LONG_MAX else v

/-- strtol(s, &end, 10) (libc): the parsed value together with whether any
conversion was performed (end != s).  Per the C standard, when the subject
sequence is empty the start pointer is stored in end, even if whitespace or
a sign was consumed, and an out-of-range value saturates to
LONG_MIN/LONG_MAX (long modelled as the LP64 64-bit type). -/
def strtol10 (s : String) : Int × Bool :=
  let cs := s.toList.dropWhile isCSpace
  let signAndRest : Bool × List Char :=
    match cs with
    | '-' :: rest => (true, rest)
    | '+' :: rest => (false, rest)
    | _ => (false, cs)
  let digits := signAndRest.2.takeWhile Char.isDigit
  if digits.isEmpty then (0, false)
  else (clampLong
    (if signAndRest.1 then -(strtolDigits digits 0) else strtolDigits digits 0), true)

/-- Assignment of the long strtol result to a 32-bit gint style field
(highlighting.c lines 244 and 246): two's-complement narrowing mod 2^32,
as GCC defines out-of-range signed conversions. -/
def gintOfLong (v : Int) : Int :=
  (v + 2147483648) % 4294967296 - 2147483648

/-- The field assignments of get_keyfile_int (highlighting.c lines 243-251),
given the selected string list.  The C code first assigns either
strtol(list[x], &end, 10) or the default, and then re-assigns the default
when list == NULL or list[x] == end (no conversion performed).  When
list[x] is NULL the first branch already stored the default and end is left
untouched, so the outcome is the default either way; the two phases are
therefore merged into one expression per field.  The stored strtol result
passes through gintOfLong, the long-to-gint narrowing of the assignment. -/
def intFromList (list : Option (List String))
    (fdefault_val sdefault_val : Int) (style : HighlightingStyle) :
    HighlightingStyle :=
  { style with
    foreground :=
      match listItem list 0 with
      | some s =>
        if (strtol10 s).2 then gintOfLong (strtol10 s).1 else fdefault_val
      | none => fdefault_val
    background :=
      match listItem list 1 with
      | some s =>
        if (strtol10 s).2 then gintOfLong (strtol10 s).1 else sdefault_val
      | none => sdefault_val }

/-- get_keyfile_int (highlighting.c lines 231-254): returns the style left
in *style.  When config, configh or section is NULL the function returns
immediately, leaving the style unchanged. -/
def get_keyfile_int (config configh : Option GKeyFile) (sect : Option String)
    (key : String) (fdefault_val sdefault_val : Int)
    (style : HighlightingStyle) : HighlightingStyle :=
  match config, configh, sect with
  | some config, some configh, some sect =>
    intFromList
      (firstSome (configh.get_string_list sect key)
        (config.get_string_list sect key))
      fdefault_val sdefault_val style
  | _, _, _ => style

/-- One Scintilla style message issued through SSM by set_sci_style. -/
inductive SciCall where
  | setFore (style : Int) (value : Nat)
  | setBack (style : Int) (value : Nat)
  | setBold (style : Int) (value : Bool)
  | setItalic (style : Int) (value : Bool)
deriving Repr, DecidableEq

/-- Conversion of a gint to the guint parameter of invert (two's-complement
reinterpretation). -/
def gintToGuint (x : Int) : Nat := (x % 4294967296).toNat

/-- set_sci_style (highlighting.c lines 272-285): the sequence of widget
calls issued for Scintilla style number style.  The styling record is
common_style_set.styling[styling_index] when ft == GEANY_FILETYPES_NONE and
style_sets[ft].styling[styling_index] otherwise; the numeric value of
GEANY_FILETYPES_NONE (filetypes.h, outside this excerpt) is a parameter. -/
def set_sci_style (geany_filetypes_none : Int) (invert_all : Int)
    (common_styling ft_styling : List HighlightingStyle)
    (style ft : Int) (styling_index : Nat) : List SciCall :=
  let style_ptr :=
    if ft = geany_filetypes_none then
      common_styling.getD styling_index ⟨0, 0, false, false⟩
    else
      ft_styling.getD styling_index ⟨0, 0, false, false⟩
  [SciCall.setFore style (invert invert_all (gintToGuint style_ptr.foreground)),
   SciCall.setBack style (invert invert_all (gintToGuint style_ptr.background)),
   SciCall.setBold style style_ptr.bold,
   SciCall.setItalic style style_ptr.italic]

/-- Access-level model of reading cell i of the NULL-terminated string
array returned by g_key_file_get_string_list.  The allocation holds the
strings at indices 0..len-1 and the NULL terminator at index len; reading
any later cell is out of bounds (undefined behaviour), modelled as error. -/
def cStrvRead (l : List String) (i : Nat) : Except Unit (Option String) :=
  if i ≤ l.length then Except.ok (l.get? i) else Except.error ()

/-- Access-level model of the body of get_keyfile_style for a non-NULL
list: the C code evaluates list[0], list[1], list[2] and list[3]
unconditionally (each appears in a condition that is reached whenever
list != NULL), so the four cells are read in order regardless of the list
length. -/
def get_keyfile_style_reads (strtod : String → Int) (atob : String → Bool)
    (l : List String) (default_style : HighlightingStyle) :
    Except Unit HighlightingStyle := do
  let e0 ← cStrvRead l 0
  let foreground := match e0 with
    | some s => strtod s
    | none => rotate_rgb default_style.foreground
  let e1 ← cStrvRead l 1
  let background := match e1 with
    | some s => strtod s
    | none => rotate_rgb default_style.background
  let e2 ← cStrvRead l 2
  let bold := match e2 with
    | some s => atob s
    | none => default_style.bold
  let e3 ← cStrvRead l 3
  let italic := match e3 with
    | some s => atob s
    | none => default_style.italic
  pure ⟨foreground, background, bold, italic⟩

/-- Access-level model of the body of get_keyfile_hex for a non-NULL list:
like get_keyfile_style, the C code reads list[0..3] unconditionally. -/
def get_keyfile_hex_reads (strtod : String → Int) (atob : String → Bool)
    (l : List String) (foreground background bold : Option String)
    (style : HighlightingStyle) : Except Unit HighlightingStyle := do
  let e0 ← cStrvRead l 0
  let fg := match e0 with
    | some s => strtod s
    | none => match foreground with
      | some f => strtod f
      | none => style.foreground
  let e1 ← cStrvRead l 1
  let bg := match e1 with
    | some s => strtod s
    | none => match background with
      | some b => strtod b
      | none => style.background
  let e2 ← cStrvRead l 2
  let bd := match e2 with
    | some s => atob s
    | none => atobOpt atob bold
  let e3 ← cStrvRead l 3
  let it := match e3 with
    | some s => atob s
    | none => false
  pure ⟨fg, bg, bd, it⟩

/-- The number of elements of the file-scope array style_sets
(highlighting.c line 55: StyleSet style_sets[GEANY_MAX_BUILT_IN_FILETYPES - 1]).
GEANY_MAX_BUILT_IN_FILETYPES is defined in filetypes.h, outside this
excerpt, so it is a parameter. -/
def style_sets_len (geany_max_built_in_filetypes : Int) : Int :=
  geany_max_built_in_filetypes - 1

/-- highlighting_get_style (highlighting.c lines 2981-2991), up to the
array access: none models the NULL return of the range check, and some i
records that the function goes on to access style_sets[i]. -/
def highlighting_get_style (geany_max_built_in_filetypes ft_id : Int) :
    Option Int :=
  if ft_id < 0 || ft_id > geany_max_built_in_filetypes then none
  else some ft_id

/-- Whether index i is within the bounds of style_sets. -/
def style_sets_inBounds (geany_max_built_in_filetypes i : Int) : Prop :=
  0 ≤ i ∧ i < style_sets_len geany_max_built_in_filetypes

instance (n i : Int) : Decidable (style_sets_inBounds n i) := by
  unfold style_sets_inBounds; infer_instance

/-- Indices into common_style_set.styling (the Geany common styling enum,
highlighting.c lines 59-77). -/
def GCS_DEFAULT : Nat := 0
def GCS_SELECTION : Nat := 1
def GCS_BRACE_GOOD : Nat := 2
def GCS_BRACE_BAD : Nat := 3
def GCS_MARGIN_LINENUMBER : Nat := 4
def GCS_MARGIN_FOLDING : Nat := 5
def GCS_CURRENT_LINE : Nat := 6
def GCS_CARET : Nat := 7
def GCS_INDENT_GUIDE : Nat := 8
def GCS_WHITE_SPACE : Nat := 9
def GCS_LINE_WRAP_VISUALS : Nat := 10
def GCS_LINE_WRAP_INDENT : Nat := 11
def GCS_TRANSLUCENCY : Nat := 12
def GCS_MARKER_LINE : Nat := 13
def GCS_MARKER_SEARCH : Nat := 14
def GCS_MARKER_TRANSLUCENCY : Nat := 15
def GCS_MAX : Nat := 16

/-- The mutable state touched by styleset_common_init: common_style_set
(styling array, folding style bitfields, invert_all, wordchars), the
file-scope whitespace_chars, and the function-static guard
common_style_set_valid. -/
structure HighlightingState where
  common_styling : List HighlightingStyle
  folding_marker : Int
  folding_lines : Int
  folding_draw_line : Int
  invert_all : Int
  common_wordchars : String
  whitespace_chars : String
  common_style_set_valid : Bool
deriving Repr, DecidableEq

/-- Read-modify-write of one entry of the common styling array. -/
def updStyling (styling : List HighlightingStyle) (i : Nat)
    (f : HighlightingStyle → HighlightingStyle) : List HighlightingStyle :=
  styling.set i (f (styling.getD i ⟨0, 0, false, false⟩))

/-- styleset_common_init (highlighting.c lines 342-410).  tmp0 is the
initial (uninitialised in C) value of the local tmp_style, threaded through
the successive get_keyfile_int calls exactly as the C variable is reused.
The 2-bit and 3-bit FoldingStyle bitfields truncate their assigned values
mod 4 and mod 8. -/
def styleset_common_init (strtod : String → Int) (atob : String → Bool)
    (config config_home : Option GKeyFile) (tmp0 : HighlightingStyle)
    (s : HighlightingState) : HighlightingState :=
  if s.common_style_set_valid then s
  else
    let sty := some "styling"
    let hex := fun key fg bg bold st =>
      get_keyfile_hex strtod atob config config_home sty key
        (some fg) (some bg) (some bold) st
    let st0 := s.common_styling
    let st1 := updStyling st0 GCS_DEFAULT (hex "default" "0x000000" "0xffffff" "false")
    let st2 := updStyling st1 GCS_SELECTION (hex "selection" "0xc0c0c0" "0x7f0000" "false")
    let st3 := updStyling st2 GCS_BRACE_GOOD (hex "brace_good" "0x000000" "0xffffff" "false")
    let st4 := updStyling st3 GCS_BRACE_BAD (hex "brace_bad" "0xff0000" "0xffffff" "false")
    let st5 := updStyling st4 GCS_MARGIN_LINENUMBER (hex "margin_linenumber" "0x000000" "0xd0d0d0" "false")
    let st6 := updStyling st5 GCS_MARGIN_FOLDING (hex "margin_folding" "0x000000" "0xdfdfdf" "false")
    let st7 := updStyling st6 GCS_CURRENT_LINE (hex "current_line" "0x000000" "0xe5e5e5" "true")
    let st8 := updStyling st7 GCS_CARET (hex "caret" "0x000000" "0x000000" "false")
    let st9 := updStyling st8 GCS_INDENT_GUIDE (hex "indent_guide" "0xc0c0c0" "0xffffff" "false")
    let st10 := updStyling st9 GCS_WHITE_SPACE (hex "white_space" "0xc0c0c0" "0xffffff" "true")
    let st11 := updStyling st10 GCS_MARKER_LINE (hex "marker_line" "0x000000" "0xffff00" "false")
    let st12 := updStyling st11 GCS_MARKER_SEARCH (hex "marker_search" "0x000000" "0xB8F4B8" "false")
    let ki := fun key f s t => get_keyfile_int config config_home sty key f s t
    let tmp1 := ki "folding_style" 1 1 tmp0
    let tmp2 := ki "invert_all" 0 0 tmp1
    let tmp3 := ki "folding_horiz_line" 2 0 tmp2
    let tmp4 := ki "caret_width" 1 0 tmp3
    let st13 := updStyling st12 GCS_CARET (fun st => { st with background := tmp4.foreground })
    let tmp5 := ki "line_wrap_visuals" 3 0 tmp4
    let st14 := updStyling st13 GCS_LINE_WRAP_VISUALS
      (fun st => { st with foreground := tmp5.foreground, background := tmp5.background })
    let tmp6 := ki "line_wrap_indent" 0 0 tmp5
    let st15 := updStyling st14 GCS_LINE_WRAP_INDENT
      (fun st => { st with foreground := tmp6.foreground })
    let tmp7 := ki "translucency" 256 256 tmp6
    let st16 := updStyling st15 GCS_TRANSLUCENCY
      (fun st => { st with foreground := tmp7.foreground, background := tmp7.background })
    let tmp8 := ki "marker_translucency" 256 256 tmp7
    let st17 := updStyling st16 GCS_MARKER_TRANSLUCENCY
      (fun st => { st with foreground := tmp8.foreground, background := tmp8.background })
    { common_style_set_valid := true
      common_styling := st17
      folding_marker := tmp1.foreground % 4
      folding_lines := tmp1.background % 4
      folding_draw_line := tmp3.foreground % 8
      invert_all := tmp2.foreground
      common_wordchars := get_keyfile_wordchars config config_home
      whitespace_chars := get_keyfile_whitespace_chars config config_home }

/-- A sample user key file whose lookups always succeed. -/
def kfUser : GKeyFile :=
  ⟨fun _ _ => some "userval", fun _ _ => some ["11", "22", "true", "false"]⟩

/-- A sample system key file whose lookups always succeed. -/
def kfSys : GKeyFile :=
  ⟨fun _ _ => some "sysval", fun _ _ => some ["33", "44", "false", "true"]⟩

/-- A sample key file with no keys at all. -/
def kfEmpty : GKeyFile := ⟨fun _ _ => none, fun _ _ => none⟩

/-- A sample stand-in for (gint) utils_strtod. -/
def demoStrtod : String → Int := fun s => (strtol10 s).1

/-- A sample stand-in for utils_atob. -/
def demoAtob : String → Bool := fun s => s = "true"

/-- A sample styling record. -/
def demoStyle : HighlightingStyle := ⟨1, 2, false, true⟩

/-- A sample pre-initialisation highlighting state. -/
def demoState : HighlightingState :=
  ⟨[], 0, 0, 0, 0, "", "", false⟩

/-- A sample key file whose string-list lookup yields one element that
parses beyond the gint range. -/
def kfBig : GKeyFile :=
  ⟨fun _ _ => none, fun _ _ => some ["2147483648"]⟩

/-! Bit-level toolkit: byte-aligned splitting of Nat lor and land. -/

theorem lor_byteSplit {k : Nat} (a a' b b' : Nat) (hb : b < 2 ^ k) (hb' : b' < 2 ^ k) :
    (2 ^ k * a + b) ||| (2 ^ k * a' + b') = 2 ^ k * (a ||| a') + (b ||| b') := by
  apply Nat.eq_of_testBit_eq
  intro j
  rw [Nat.testBit_or, Nat.testBit_mul_pow_two_add a hb, Nat.testBit_mul_pow_two_add a' hb',
    Nat.testBit_mul_pow_two_add (a ||| a') (Nat.or_lt_two_pow hb hb')]
  by_cases h : j < k <;> simp [h, Nat.testBit_or]

theorem land_byteSplit {k : Nat} (a a' b b' : Nat) (hb : b < 2 ^ k) (hb' : b' < 2 ^ k) :
    (2 ^ k * a + b) &&& (2 ^ k * a' + b') = 2 ^ k * (a &&& a') + (b &&& b') := by
  apply Nat.eq_of_testBit_eq
  intro j
  rw [Nat.testBit_and, Nat.testBit_mul_pow_two_add a hb, Nat.testBit_mul_pow_two_add a' hb',
    Nat.testBit_mul_pow_two_add (a &&& a') (Nat.and_lt_two_pow b hb')]
  by_cases h : j < k <;> simp [h, Nat.testBit_and]

theorem lor_bytes4 (x3 x2 x1 x0 y3 y2 y1 y0 : Nat)
    (hx2 : x2 < 256) (hx1 : x1 < 256) (hx0 : x0 < 256)
    (hy2 : y2 < 256) (hy1 : y1 < 256) (hy0 : y0 < 256) :
    (x3 * 16777216 + x2 * 65536 + x1 * 256 + x0) |||
      (y3 * 16777216 + y2 * 65536 + y1 * 256 + y0) =
    (x3 ||| y3) * 16777216 + (x2 ||| y2) * 65536 + (x1 ||| y1) * 256 + (x0 ||| y0) := by
  have ex : x3 * 16777216 + x2 * 65536 + x1 * 256 + x0
      = 2 ^ 8 * (2 ^ 8 * (2 ^ 8 * x3 + x2) + x1) + x0 := by ring
  have ey : y3 * 16777216 + y2 * 65536 + y1 * 256 + y0
      = 2 ^ 8 * (2 ^ 8 * (2 ^ 8 * y3 + y2) + y1) + y0 := by ring
  rw [ex, ey, lor_byteSplit _ _ _ _ (by omega) (by omega),
    lor_byteSplit _ _ _ _ (by omega) (by omega),
    lor_byteSplit _ _ _ _ (by omega) (by omega)]
  ring

theorem land_bytes4 (x3 x2 x1 x0 y3 y2 y1 y0 : Nat)
    (hx2 : x2 < 256) (hx1 : x1 < 256) (hx0 : x0 < 256)
    (hy2 : y2 < 256) (hy1 : y1 < 256) (hy0 : y0 < 256) :
    (x3 * 16777216 + x2 * 65536 + x1 * 256 + x0) &&&
      (y3 * 16777216 + y2 * 65536 + y1 * 256 + y0) =
    (x3 &&& y3) * 16777216 + (x2 &&& y2) * 65536 + (x1 &&& y1) * 256 + (x0 &&& y0) := by
  have ex : x3 * 16777216 + x2 * 65536 + x1 * 256 + x0
      = 2 ^ 8 * (2 ^ 8 * (2 ^ 8 * x3 + x2) + x1) + x0 := by ring
  have ey : y3 * 16777216 + y2 * 65536 + y1 * 256 + y0
      = 2 ^ 8 * (2 ^ 8 * (2 ^ 8 * y3 + y2) + y1) + y0 := by ring
  rw [ex, ey, land_byteSplit _ _ _ _ (by omega) (by omega),
    land_byteSplit _ _ _ _ (by omega) (by omega),
    land_byteSplit _ _ _ _ (by omega) (by omega)]
  ring

theorem and_255 {x : Nat} (h : x < 256) : x &&& 255 = x := by
  have h2 : x &&& 2 ^ 8 - 1 = x := Nat.and_pow_two_sub_one_of_lt_two_pow (by omega)
  norm_num at h2
  exact h2

/-! Behaviour of rotate_rgb on byte-decomposed colours. -/

theorem rotate_rgb_natBytes (R G B : Nat) (hR : R < 256) (hG : G < 256) (hB : B < 256) :
    rotate_rgb ((R * 65536 + G * 256 + B : Nat) : Int)
      = ((B * 65536 + G * 256 + R : Nat) : Int) := by
  have hmod : (((R * 65536 + G * 256 + B : Nat) : Int) % 4294967296)
      = ((R * 65536 + G * 256 + B : Nat) : Int) :=
    Int.emod_eq_of_lt (by positivity) (by push_cast; omega)
  simp only [rotate_rgb, hmod, Int.toNat_ofNat]
  have m1 : (R * 65536 + G * 256 + B) &&& 16711680 = R * 65536 := by
    have h := land_bytes4 0 R G B 0 255 0 0 hR hG hB (by omega) (by omega) (by omega)
    norm_num [and_255 hR] at h
    convert h using 2
  have m2 : (R * 65536 + G * 256 + B) &&& 65280 = G * 256 := by
    have h := land_bytes4 0 R G B 0 0 255 0 hR hG hB (by omega) (by omega) (by omega)
    norm_num [and_255 hG] at h
    convert h using 2
  have m3 : (R * 65536 + G * 256 + B) &&& 255 = B := by
    have h := land_bytes4 0 R G B 0 0 0 255 hR hG hB (by omega) (by omega) (by omega)
    norm_num [and_255 hB] at h
    convert h using 2
  rw [m1, m2, m3, Nat.shiftRight_eq_div_pow, Nat.shiftLeft_eq]
  norm_num
  omega

theorem rotate_rgb_involution (c : Int) (h0 : 0 ≤ c) (h1 : c ≤ 16777215) :
    rotate_rgb (rotate_rgb c) = c := by
  obtain ⟨n, rfl⟩ : ∃ n : Nat, c = (n : Int) := ⟨c.toNat, (Int.toNat_of_nonneg h0).symm⟩
  have hn : n ≤ 16777215 := by exact_mod_cast h1
  have hdec : n = n / 65536 * 65536 + n / 256 % 256 * 256 + n % 256 := by omega
  rw [hdec]
  rw [rotate_rgb_natBytes _ _ _ (by omega) (by omega) (by omega),
    rotate_rgb_natBytes _ _ _ (by omega) (by omega) (by omega)]

/-! Behaviour of invert. -/

theorem invert_zero (c : Nat) : invert 0 c = c := by
  simp [invert]

theorem invert_nonzero (f : Int) (c : Nat) (hf : f ≠ 0) (hc : c ≤ 16777215) :
    invert f c = 4278190080 + (16777215 - c) := by
  unfold invert
  rw [if_pos hf]
  simp only [Nat.shiftRight_eq_div_pow, Nat.shiftLeft_eq]
  have e1 : (4294967296 + 16777215 - c) % 4294967296
      = 0 * 16777216 + (255 - c / 65536) * 65536 + (255 - c / 256 % 256) * 256
        + (255 - c % 256) := by omega
  have e2 : (4294967296 + 16777215 - c / 2 ^ 8) % 4294967296 * 2 ^ 8 % 4294967296
      = 255 * 16777216 + (255 - c / 65536) * 65536 + (255 - c / 256 % 256) * 256
        + 0 := by omega
  have e3 : (4294967296 + 16777215 - c / 2 ^ 16) % 4294967296 * 2 ^ 16 % 4294967296
      = 255 * 16777216 + (255 - c / 65536) * 65536 + 0 * 256 + 0 := by omega
  rw [e1, e2, e3]
  rw [lor_bytes4 _ _ _ _ _ _ _ _ (by omega) (by omega) (by omega)
    (by omega) (by omega) (by omega)]
  simp only [Nat.or_self, Nat.zero_or, Nat.or_zero]
  rw [lor_bytes4 _ _ _ _ _ _ _ _ (by omega) (by omega) (by omega)
    (by omega) (by omega) (by omega)]
  simp only [Nat.or_self, Nat.zero_or, Nat.or_zero]
  omega

/-! Claims. -/

/-- Claim C3: for every 24-bit colour 0xRRGGBB, rotate_rgb exchanges the
red and blue channels and keeps the green channel (yielding 0xBBGGRR), and
is consequently an involution on [0, 0xffffff]. -/
theorem claim_C3 :
    (∀ R G B : Nat, R < 256 → G < 256 → B < 256 →
      rotate_rgb ((R * 65536 + G * 256 + B : Nat) : Int)
        = ((B * 65536 + G * 256 + R : Nat) : Int))
  ∧ ∀ c : Int, 0 ≤ c → c ≤ 16777215 → rotate_rgb (rotate_rgb c) = c :=
  ⟨fun R G B hR hG hB => rotate_rgb_natBytes R G B hR hG hB,
   fun c h0 h1 => rotate_rgb_involution c h0 h1⟩

/-- Claim C3 witness: the channel swap and the involution at 0x010203. -/
theorem claim_C3_witness :
    rotate_rgb ((1 * 65536 + 2 * 256 + 3 : Nat) : Int)
      = ((3 * 65536 + 2 * 256 + 1 : Nat) : Int)
  ∧ rotate_rgb (rotate_rgb 66051) = 66051 :=
  ⟨claim_C3.1 1 2 3 (by decide) (by decide) (by decide),
   claim_C3.2 66051 (by decide) (by decide)⟩

/-- Claim C2 counterexample: with invert_all set, invert maps 0 to
0xffffffff, not to the channel-wise negation 0xffffff - 0 = 0xffffff that
the claim asserts: the OR of the three shifted complements leaves the top
byte of the 32-bit result set to 0xff. -/
theorem claim_C2_counterexample :
    invert 1 0 = 4294967295 ∧ (4294967295 : Nat) ≠ 16777215 - 0 := by
  constructor
  · rw [invert_nonzero 1 0 (by decide) (by decide)]
  · decide

/-- Claim C2 (amended): when invert_all is 0 invert returns its argument
unchanged; when invert_all is nonzero, for every colour c with
0 <= c <= 0xffffff, invert(c) = 0xff000000 + (0xffffff - c): the low 24
bits are the channel-wise negation of c and the top byte of the 32-bit
result is 0xff. -/
theorem claim_C2 :
    (∀ c : Nat, invert 0 c = c)
  ∧ ∀ (invert_all : Int) (c : Nat), invert_all ≠ 0 → c ≤ 16777215 →
      invert invert_all c = 4278190080 + (16777215 - c) :=
  ⟨invert_zero, fun f c hf hc => invert_nonzero f c hf hc⟩

/-- Claim C2 witness: the identity case at 7 and the inverting case at 3. -/
theorem claim_C2_witness :
    invert 0 7 = 7 ∧ invert 1 3 = 4278190080 + (16777215 - 3) :=
  ⟨claim_C2.1 7, claim_C2.2 1 3 (by decide) (by decide)⟩

/-- Claim C5 counterexample: with invert_all set (a supported
configuration: the invert_all styling key), the foreground stored in the
styling record is 0, but the value forwarded to the widget is
invert(0) = 0xffffffff, so the attributes are not forwarded verbatim. -/
theorem claim_C5_counterexample :
    set_sci_style 0 1 [⟨0, 0, false, false⟩] [] 5 0 0
      ≠ [SciCall.setFore 5 0, SciCall.setBack 5 0,
         SciCall.setBold 5 false, SciCall.setItalic 5 false] := by
  decide

/-- Claim C5 (amended): set_sci_style issues exactly four widget calls for
the given Scintilla style number, one each for foreground, background,
bold and italic, taken from the styling record of the given filetype (the
common style set when ft is GEANY_FILETYPES_NONE); bold and italic are
forwarded verbatim, while foreground and background pass through invert,
which is the identity exactly when invert_all is unset. -/
theorem claim_C5 (geany_filetypes_none invert_all : Int)
    (common_styling ft_styling : List HighlightingStyle)
    (style ft : Int) (styling_index : Nat) :
    (set_sci_style geany_filetypes_none invert_all common_styling ft_styling
        style ft styling_index).length = 4
  ∧ (∀ style_ptr,
      style_ptr = (if ft = geany_filetypes_none then
          common_styling.getD styling_index ⟨0, 0, false, false⟩
        else ft_styling.getD styling_index ⟨0, 0, false, false⟩) →
      set_sci_style geany_filetypes_none invert_all common_styling ft_styling
          style ft styling_index =
        [SciCall.setFore style (invert invert_all (gintToGuint style_ptr.foreground)),
         SciCall.setBack style (invert invert_all (gintToGuint style_ptr.background)),
         SciCall.setBold style style_ptr.bold,
         SciCall.setItalic style style_ptr.italic])
  ∧ (invert_all = 0 → ∀ style_ptr,
      style_ptr = (if ft = geany_filetypes_none then
          common_styling.getD styling_index ⟨0, 0, false, false⟩
        else ft_styling.getD styling_index ⟨0, 0, false, false⟩) →
      set_sci_style geany_filetypes_none invert_all common_styling ft_styling
          style ft styling_index =
        [SciCall.setFore style (gintToGuint style_ptr.foreground),
         SciCall.setBack style (gintToGuint style_ptr.background),
         SciCall.setBold style style_ptr.bold,
         SciCall.setItalic style style_ptr.italic]) := by
  refine ⟨rfl, ?_, ?_⟩
  · intro style_ptr h
    subst h
    rfl
  · intro h0 style_ptr h
    subst h0
    subst h
    simp [set_sci_style, invert_zero]

/-- Claim C5 witness: the calls issued for the sample styling record with
inversion disabled. -/
theorem claim_C5_witness :
    set_sci_style 7 0 [] [demoStyle] 5 0 0 =
      [SciCall.setFore 5 (gintToGuint demoStyle.foreground),
       SciCall.setBack 5 (gintToGuint demoStyle.background),
       SciCall.setBold 5 demoStyle.bold,
       SciCall.setItalic 5 demoStyle.italic] :=
  (claim_C5 7 0 [] [demoStyle] 5 0 0).2.2 rfl _ (by decide)

/-- Claim C8: a failing evaluation for the range check of
highlighting_get_style.  For every value N of GEANY_MAX_BUILT_IN_FILETYPES
(any N >= 0), ft_id = N passes the range check (the function does not
return NULL but goes on to access style_sets[N]), yet N is not within the
bounds of style_sets, which has N - 1 elements. -/
theorem claim_C8 (N : Int) (h : 0 ≤ N) :
    highlighting_get_style N N = some N ∧ ¬ style_sets_inBounds N N := by
  constructor
  · simp only [highlighting_get_style]
    rw [if_neg]
    simp only [decide_eq_true_eq, Bool.or_eq_true, not_or]
    omega
  · simp only [style_sets_inBounds, style_sets_len, not_and, not_lt]
    omega

/-- Claim C8 witness, with GEANY_MAX_BUILT_IN_FILETYPES = 43: ft_id = 43
passes the check yet indexes the 42-element array out of bounds. -/
theorem claim_C8_witness :
    highlighting_get_style 43 43 = some 43 ∧ ¬ style_sets_inBounds 43 43 :=
  claim_C8 43 (by decide)

/-- Claim C9: a failing evaluation for the string-list reads of
get_keyfile_style and get_keyfile_hex.  On a configured list with a single
element, the unconditional reads of list[2] and list[3] go past the NULL
terminator (which sits at index 1): the access-level model reports an
out-of-bounds read for both functions. -/
theorem claim_C9 (strtod : String → Int) (atob : String → Bool)
    (default_style style : HighlightingStyle)
    (foreground background bold : Option String) :
    get_keyfile_style_reads strtod atob ["0x000000"] default_style
        = Except.error ()
  ∧ get_keyfile_hex_reads strtod atob ["0x000000"] foreground background bold
        style = Except.error () :=
  ⟨rfl, rfl⟩

/-- Claim C1: for each styleset-initialisation lookup (style entry, keyword
list, word characters, whitespace characters), the user key file configh
takes precedence: a value found there is used as-is, the system key file
config is consulted only when configh yields none, and the hard-coded
default is used only when both yield none. -/
theorem claim_C1 (config configh : GKeyFile) (sect key default_value : String)
    (strtod : String → Int) (atob : String → Bool)
    (default_style : HighlightingStyle) :
    ((∀ v, configh.get_string sect key = some v →
        get_keyfile_keywords (some config) (some configh) (some sect) key
          default_value = v)
     ∧ (configh.get_string sect key = none →
        ∀ v, config.get_string sect key = some v →
          get_keyfile_keywords (some config) (some configh) (some sect) key
            default_value = v)
     ∧ (configh.get_string sect key = none → config.get_string sect key = none →
        get_keyfile_keywords (some config) (some configh) (some sect) key
          default_value = default_value))
  ∧ ((∀ v, configh.get_string "settings" "wordchars" = some v →
        get_keyfile_wordchars (some config) (some configh) = v)
     ∧ (configh.get_string "settings" "wordchars" = none →
        ∀ v, config.get_string "settings" "wordchars" = some v →
          get_keyfile_wordchars (some config) (some configh) = v)
     ∧ (configh.get_string "settings" "wordchars" = none →
        config.get_string "settings" "wordchars" = none →
        get_keyfile_wordchars (some config) (some configh) = GEANY_WORDCHARS))
  ∧ ((∀ v, configh.get_string "settings" "whitespace_chars" = some v →
        get_keyfile_whitespace_chars (some config) (some configh) = v)
     ∧ (configh.get_string "settings" "whitespace_chars" = none →
        ∀ v, config.get_string "settings" "whitespace_chars" = some v →
          get_keyfile_whitespace_chars (some config) (some configh) = v)
     ∧ (configh.get_string "settings" "whitespace_chars" = none →
        config.get_string "settings" "whitespace_chars" = none →
        get_keyfile_whitespace_chars (some config) (some configh)
          = GEANY_WHITESPACE_CHARS))
  ∧ ((∀ l, configh.get_string_list "styling" key = some l →
        get_keyfile_style strtod atob config configh key default_style
          = styleFromList strtod atob (some l) default_style)
     ∧ (configh.get_string_list "styling" key = none →
        ∀ l, config.get_string_list "styling" key = some l →
          get_keyfile_style strtod atob config configh key default_style
            = styleFromList strtod atob (some l) default_style)
     ∧ (configh.get_string_list "styling" key = none →
        config.get_string_list "styling" key = none →
        get_keyfile_style strtod atob config configh key default_style
          = styleFromList strtod atob none default_style)) := by
  refine ⟨⟨?_, ?_, ?_⟩, ⟨?_, ?_, ?_⟩, ⟨?_, ?_, ?_⟩, ⟨?_, ?_, ?_⟩⟩
  · intro v h; simp [get_keyfile_keywords, firstSome, h]
  · intro h v h2; simp [get_keyfile_keywords, firstSome, h, h2]
  · intro h h2; simp [get_keyfile_keywords, firstSome, h, h2]
  · intro v h; simp [get_keyfile_wordchars, firstSome, h]
  · intro h v h2; simp [get_keyfile_wordchars, firstSome, h, h2]
  · intro h h2; simp [get_keyfile_wordchars, firstSome, h, h2]
  · intro v h; simp [get_keyfile_whitespace_chars, firstSome, h]
  · intro h v h2; simp [get_keyfile_whitespace_chars, firstSome, h, h2]
  · intro h h2; simp [get_keyfile_whitespace_chars, firstSome, h, h2]
  · intro l h; simp [get_keyfile_style, firstSome, h]
  · intro h l h2; simp [get_keyfile_style, firstSome, h, h2]
  · intro h h2; simp [get_keyfile_style, firstSome, h, h2]

/-- Claim C1 witness: precedence on sample key files (user wins, system
consulted only without a user value, default only when both miss). -/
theorem claim_C1_witness :
    get_keyfile_keywords (some kfSys) (some kfUser) (some "sec") "key" "dflt"
      = "userval"
  ∧ get_keyfile_keywords (some kfSys) (some kfEmpty) (some "sec") "key" "dflt"
      = "sysval"
  ∧ get_keyfile_keywords (some kfEmpty) (some kfEmpty) (some "sec") "key" "dflt"
      = "dflt"
  ∧ get_keyfile_style demoStrtod demoAtob kfSys kfEmpty "key" demoStyle
      = styleFromList demoStrtod demoAtob (some ["33", "44", "false", "true"])
          demoStyle :=
  ⟨(claim_C1 kfSys kfUser "sec" "key" "dflt" demoStrtod demoAtob demoStyle).1.1
      "userval" rfl,
   (claim_C1 kfSys kfEmpty "sec" "key" "dflt" demoStrtod demoAtob demoStyle).1.2.1
      rfl "sysval" rfl,
   (claim_C1 kfEmpty kfEmpty "sec" "key" "dflt" demoStrtod demoAtob demoStyle).1.2.2
      rfl rfl,
   (claim_C1 kfSys kfEmpty "sec" "key" "dflt" demoStrtod demoAtob demoStyle).2.2.2.2.1
      rfl ["33", "44", "false", "true"] rfl⟩

/-- Claim C4: whenever a keyfile pointer is NULL or the key is absent from
both key files, the lookups fall back to their hard-coded defaults:
get_keyfile_keywords stores the supplied default string,
get_keyfile_wordchars stores GEANY_WORDCHARS, and
get_keyfile_whitespace_chars returns GEANY_WHITESPACE_CHARS. -/
theorem claim_C4 :
    (∀ (configh : Option GKeyFile) (sect : Option String) (key default_value : String),
        get_keyfile_keywords none configh sect key default_value = default_value)
  ∧ (∀ (config : Option GKeyFile) (sect : Option String) (key default_value : String),
        get_keyfile_keywords config none sect key default_value = default_value)
  ∧ (∀ (config configh : GKeyFile) (sect key default_value : String),
        configh.get_string sect key = none → config.get_string sect key = none →
        get_keyfile_keywords (some config) (some configh) (some sect) key
          default_value = default_value)
  ∧ (∀ configh : Option GKeyFile,
        get_keyfile_wordchars none configh = GEANY_WORDCHARS)
  ∧ (∀ config : Option GKeyFile,
        get_keyfile_wordchars config none = GEANY_WORDCHARS)
  ∧ (∀ config configh : GKeyFile,
        configh.get_string "settings" "wordchars" = none →
        config.get_string "settings" "wordchars" = none →
        get_keyfile_wordchars (some config) (some configh) = GEANY_WORDCHARS)
  ∧ (∀ configh : Option GKeyFile,
        get_keyfile_whitespace_chars none configh = GEANY_WHITESPACE_CHARS)
  ∧ (∀ config : Option GKeyFile,
        get_keyfile_whitespace_chars config none = GEANY_WHITESPACE_CHARS)
  ∧ (∀ config configh : GKeyFile,
        configh.get_string "settings" "whitespace_chars" = none →
        config.get_string "settings" "whitespace_chars" = none →
        get_keyfile_whitespace_chars (some config) (some configh)
          = GEANY_WHITESPACE_CHARS) := by
  refine ⟨?_, ?_, ?_, ?_, ?_, ?_, ?_, ?_, ?_⟩
  · intro cfgh sect key d; rcases cfgh with _ | cfgh <;> rcases sect with _ | s <;> rfl
  · intro cfg sect key d; rcases cfg with _ | cfg <;> rcases sect with _ | s <;> rfl
  · intro cfg cfgh sect key d h h2
    simp [get_keyfile_keywords, firstSome, h, h2]
  · intro cfgh; rcases cfgh with _ | cfgh <;> rfl
  · intro cfg; rcases cfg with _ | cfg <;> rfl
  · intro cfg cfgh h h2; simp [get_keyfile_wordchars, firstSome, h, h2]
  · intro cfgh; rcases cfgh with _ | cfgh <;> rfl
  · intro cfg; rcases cfg with _ | cfg <;> rfl
  · intro cfg cfgh h h2; simp [get_keyfile_whitespace_chars, firstSome, h, h2]

/-- Claim C4 witness: the key-absent-from-both case for all three lookups. -/
theorem claim_C4_witness :
    get_keyfile_keywords (some kfEmpty) (some kfEmpty) (some "sec") "key" "kwdflt"
      = "kwdflt"
  ∧ get_keyfile_wordchars (some kfEmpty) (some kfEmpty) = GEANY_WORDCHARS
  ∧ get_keyfile_whitespace_chars (some kfEmpty) (some kfEmpty)
      = GEANY_WHITESPACE_CHARS :=
  ⟨claim_C4.2.2.1 kfEmpty kfEmpty "sec" "key" "kwdflt" rfl rfl,
   claim_C4.2.2.2.2.2.1 kfEmpty kfEmpty rfl rfl,
   claim_C4.2.2.2.2.2.2.2.2 kfEmpty kfEmpty rfl rfl⟩

/-- Claim C6 counterexample: the configured element "2147483648" parses to
2147483648, but the assignment of the long strtol result to the 32-bit
gint foreground field narrows it to -2147483648, so the field does not end
up equal to the parsed integer value. -/
theorem claim_C6_counterexample :
    (get_keyfile_int (some kfBig) (some kfBig) (some "styling") "caret_width"
        1 0 demoStyle).foreground = -2147483648
  ∧ (strtol10 "2147483648").1 = 2147483648
  ∧ (-2147483648 : Int) ≠ 2147483648 := by
  refine ⟨by decide, by decide, by decide⟩

/-- Claim C6 (amended): for a styling key read by get_keyfile_int with
non-NULL key files and section, a key missing from both key files, an
absent list element, or an element on which strtol performs no conversion
leaves the corresponding default in the foreground (first element) or
background (second element) field; otherwise the field holds the strtol
value narrowed from long to the 32-bit gint field, which equals the parsed
integer value exactly when that value fits in gint. -/
theorem claim_C6 (config configh : GKeyFile) (sect key : String)
    (fdefault_val sdefault_val : Int) (style : HighlightingStyle) :
    (firstSome (configh.get_string_list sect key)
        (config.get_string_list sect key) = none →
      (get_keyfile_int (some config) (some configh) (some sect) key
          fdefault_val sdefault_val style).foreground = fdefault_val
      ∧ (get_keyfile_int (some config) (some configh) (some sect) key
          fdefault_val sdefault_val style).background = sdefault_val)
  ∧ (∀ l, firstSome (configh.get_string_list sect key)
        (config.get_string_list sect key) = some l →
      ((l.get? 0 = none →
          (get_keyfile_int (some config) (some configh) (some sect) key
            fdefault_val sdefault_val style).foreground = fdefault_val)
       ∧ (∀ e, l.get? 0 = some e → (strtol10 e).2 = false →
          (get_keyfile_int (some config) (some configh) (some sect) key
            fdefault_val sdefault_val style).foreground = fdefault_val)
       ∧ (∀ e, l.get? 0 = some e → (strtol10 e).2 = true →
          (get_keyfile_int (some config) (some configh) (some sect) key
            fdefault_val sdefault_val style).foreground
              = gintOfLong (strtol10 e).1)
       ∧ (∀ e, l.get? 0 = some e → (strtol10 e).2 = true →
          -2147483648 ≤ (strtol10 e).1 → (strtol10 e).1 ≤ 2147483647 →
          (get_keyfile_int (some config) (some configh) (some sect) key
            fdefault_val sdefault_val style).foreground = (strtol10 e).1))
      ∧ ((l.get? 1 = none →
          (get_keyfile_int (some config) (some configh) (some sect) key
            fdefault_val sdefault_val style).background = sdefault_val)
       ∧ (∀ e, l.get? 1 = some e → (strtol10 e).2 = false →
          (get_keyfile_int (some config) (some configh) (some sect) key
            fdefault_val sdefault_val style).background = sdefault_val)
       ∧ (∀ e, l.get? 1 = some e → (strtol10 e).2 = true →
          (get_keyfile_int (some config) (some configh) (some sect) key
            fdefault_val sdefault_val style).background
              = gintOfLong (strtol10 e).1)
       ∧ (∀ e, l.get? 1 = some e → (strtol10 e).2 = true →
          -2147483648 ≤ (strtol10 e).1 → (strtol10 e).1 ≤ 2147483647 →
          (get_keyfile_int (some config) (some configh) (some sect) key
            fdefault_val sdefault_val style).background = (strtol10 e).1))) := by
  constructor
  · intro h
    constructor <;> simp [get_keyfile_int, intFromList, listItem, h]
  · intro l h
    refine ⟨⟨?_, ?_, ?_, ?_⟩, ⟨?_, ?_, ?_, ?_⟩⟩
    · intro h2; simp only [List.get?_eq_getElem?] at h2
      simp [get_keyfile_int, intFromList, listItem, h, h2]
    · intro e h2 h3; simp only [List.get?_eq_getElem?] at h2
      simp [get_keyfile_int, intFromList, listItem, h, h2, h3]
    · intro e h2 h3; simp only [List.get?_eq_getElem?] at h2
      simp [get_keyfile_int, intFromList, listItem, h, h2, h3]
    · intro e h2 h3 h4 h5; simp only [List.get?_eq_getElem?] at h2
      simp [get_keyfile_int, intFromList, listItem, h, h2, h3, gintOfLong]
      omega
    · intro h2; simp only [List.get?_eq_getElem?] at h2
      simp [get_keyfile_int, intFromList, listItem, h, h2]
    · intro e h2 h3; simp only [List.get?_eq_getElem?] at h2
      simp [get_keyfile_int, intFromList, listItem, h, h2, h3]
    · intro e h2 h3; simp only [List.get?_eq_getElem?] at h2
      simp [get_keyfile_int, intFromList, listItem, h, h2, h3]
    · intro e h2 h3 h4 h5; simp only [List.get?_eq_getElem?] at h2
      simp [get_keyfile_int, intFromList, listItem, h, h2, h3, gintOfLong]
      omega

/-- Claim C6 witness: an in-range parsed first element stored exactly, and
the key-missing case. -/
theorem claim_C6_witness :
    (get_keyfile_int (some kfSys) (some kfUser) (some "sec") "key" 7 8
        demoStyle).foreground = (strtol10 "11").1
  ∧ (get_keyfile_int (some kfEmpty) (some kfEmpty) (some "sec") "key" 7 8
        demoStyle).foreground = 7 :=
  ⟨((claim_C6 kfSys kfUser "sec" "key" 7 8 demoStyle).2
      ["11", "22", "true", "false"] rfl).1.2.2.2 "11" rfl (by decide)
      (by decide) (by decide),
   ((claim_C6 kfEmpty kfEmpty "sec" "key" 7 8 demoStyle).1 rfl).1⟩

/-- Claim C7: after get_keyfile_style with non-NULL arguments, every field
of the output record is assigned: from the parsed list element when
present, otherwise from the default style, the default foreground and
background being passed through rotate_rgb and the default bold and italic
copied unchanged. -/
theorem claim_C7 (strtod : String → Int) (atob : String → Bool)
    (config configh : GKeyFile) (key_name : String)
    (default_style : HighlightingStyle) :
    ((∀ s, listItem (firstSome (configh.get_string_list "styling" key_name)
          (config.get_string_list "styling" key_name)) 0 = some s →
        (get_keyfile_style strtod atob config configh key_name
          default_style).foreground = strtod s)
     ∧ (listItem (firstSome (configh.get_string_list "styling" key_name)
          (config.get_string_list "styling" key_name)) 0 = none →
        (get_keyfile_style strtod atob config configh key_name
          default_style).foreground = rotate_rgb default_style.foreground))
  ∧ ((∀ s, listItem (firstSome (configh.get_string_list "styling" key_name)
          (config.get_string_list "styling" key_name)) 1 = some s →
        (get_keyfile_style strtod atob config configh key_name
          default_style).background = strtod s)
     ∧ (listItem (firstSome (configh.get_string_list "styling" key_name)
          (config.get_string_list "styling" key_name)) 1 = none →
        (get_keyfile_style strtod atob config configh key_name
          default_style).background = rotate_rgb default_style.background))
  ∧ ((∀ s, listItem (firstSome (configh.get_string_list "styling" key_name)
          (config.get_string_list "styling" key_name)) 2 = some s →
        (get_keyfile_style strtod atob config configh key_name
          default_style).bold = atob s)
     ∧ (listItem (firstSome (configh.get_string_list "styling" key_name)
          (config.get_string_list "styling" key_name)) 2 = none →
        (get_keyfile_style strtod atob config configh key_name
          default_style).bold = default_style.bold))
  ∧ ((∀ s, listItem (firstSome (configh.get_string_list "styling" key_name)
          (config.get_string_list "styling" key_name)) 3 = some s →
        (get_keyfile_style strtod atob config configh key_name
          default_style).italic = atob s)
     ∧ (listItem (firstSome (configh.get_string_list "styling" key_name)
          (config.get_string_list "styling" key_name)) 3 = none →
        (get_keyfile_style strtod atob config configh key_name
          default_style).italic = default_style.italic)) := by
  refine ⟨⟨?_, ?_⟩, ⟨?_, ?_⟩, ⟨?_, ?_⟩, ⟨?_, ?_⟩⟩
  · intro s h; simp [get_keyfile_style, styleFromList, h]
  · intro h; simp [get_keyfile_style, styleFromList, h]
  · intro s h; simp [get_keyfile_style, styleFromList, h]
  · intro h; simp [get_keyfile_style, styleFromList, h]
  · intro s h; simp [get_keyfile_style, styleFromList, h]
  · intro h; simp [get_keyfile_style, styleFromList, h]
  · intro s h; simp [get_keyfile_style, styleFromList, h]
  · intro h; simp [get_keyfile_style, styleFromList, h]

/-- Claim C7 witness: a configured foreground and a defaulted italic. -/
theorem claim_C7_witness :
    (get_keyfile_style demoStrtod demoAtob kfSys kfUser "key"
        demoStyle).foreground = demoStrtod "11"
  ∧ (get_keyfile_style demoStrtod demoAtob kfEmpty kfEmpty "key"
        demoStyle).italic = demoStyle.italic :=
  ⟨(claim_C7 demoStrtod demoAtob kfSys kfUser "key" demoStyle).1.1 "11" rfl,
   (claim_C7 demoStrtod demoAtob kfEmpty kfEmpty "key" demoStyle).2.2.2.2 rfl⟩

/-- When the guard flag is already set, styleset_common_init returns the
state unchanged whatever its other arguments are. -/
theorem styleset_common_init_of_valid (strtod : String → Int)
    (atob : String → Bool) (config config_home : Option GKeyFile)
    (tmp0 : HighlightingStyle) (s : HighlightingState)
    (h : s.common_style_set_valid = true) :
    styleset_common_init strtod atob config config_home tmp0 s = s := by
  unfold styleset_common_init
  rw [if_pos h]

/-- After any call of styleset_common_init the guard flag is set. -/
theorem styleset_common_init_valid (strtod : String → Int)
    (atob : String → Bool) (config config_home : Option GKeyFile)
    (tmp0 : HighlightingStyle) (s : HighlightingState) :
    (styleset_common_init strtod atob config config_home tmp0
      s).common_style_set_valid = true := by
  unfold styleset_common_init
  by_cases h : s.common_style_set_valid = true
  · rw [if_pos h]; exact h
  · rw [if_neg h]

/-- Claim C10: on a state whose guard flag is still unset, the first call
of styleset_common_init sets the flag and populates the state from the key
files (shown here for whitespace_chars and the common wordchars), and
every subsequent call, with any arguments, returns the state unchanged. -/
theorem claim_C10 (strtod : String → Int) (atob : String → Bool)
    (config config_home : Option GKeyFile) (tmp0 : HighlightingStyle)
    (s : HighlightingState) (h : s.common_style_set_valid = false) :
    (styleset_common_init strtod atob config config_home tmp0
        s).common_style_set_valid = true
  ∧ (styleset_common_init strtod atob config config_home tmp0
        s).whitespace_chars = get_keyfile_whitespace_chars config config_home
  ∧ (styleset_common_init strtod atob config config_home tmp0
        s).common_wordchars = get_keyfile_wordchars config config_home
  ∧ ∀ (strtod2 : String → Int) (atob2 : String → Bool)
      (config2 config_home2 : Option GKeyFile) (tmp02 : HighlightingStyle),
      styleset_common_init strtod2 atob2 config2 config_home2 tmp02
          (styleset_common_init strtod atob config config_home tmp0 s)
        = styleset_common_init strtod atob config config_home tmp0 s := by
  have hfalse : ¬ s.common_style_set_valid = true := by simp [h]
  refine ⟨styleset_common_init_valid _ _ _ _ _ _, ?_, ?_, ?_⟩
  · unfold styleset_common_init
    rw [if_neg hfalse]
  · unfold styleset_common_init
    rw [if_neg hfalse]
  · intro strtod2 atob2 config2 config_home2 tmp02
    exact styleset_common_init_of_valid _ _ _ _ _ _
      (styleset_common_init_valid _ _ _ _ _ _)

/-- Claim C10 witness: on the sample unset state, the first call sets the
flag and populates; a second call with different arguments is a no-op. -/
theorem claim_C10_witness :
    (styleset_common_init demoStrtod demoAtob none none demoStyle
        demoState).common_style_set_valid = true
  ∧ (styleset_common_init demoStrtod demoAtob none none demoStyle
        demoState).whitespace_chars = get_keyfile_whitespace_chars none none
  ∧ (styleset_common_init demoStrtod demoAtob none none demoStyle
        demoState).common_wordchars = get_keyfile_wordchars none none
  ∧ styleset_common_init demoStrtod demoAtob (some kfUser) (some kfSys)
        demoStyle
        (styleset_common_init demoStrtod demoAtob none none demoStyle demoState)
      = styleset_common_init demoStrtod demoAtob none none demoStyle demoState := by
  obtain ⟨a, b, c, d⟩ :=
    claim_C10 demoStrtod demoAtob none none demoStyle demoState rfl
  exact ⟨a, b, c, d demoStrtod demoAtob (some kfUser) (some kfSys) demoStyle⟩
